import Mathlib

/-!
# Nebula renderer (`nebula.c`), trail ring indexing (`spfx.h`), Lua conditionals
(`cond.c`) and pilot ship Lua (`pilot_ship.c`): shallow embedding and verified properties

The file-scope variables of `nebula.c` become the fields of the record `Nebula`;
every C function becomes a function from the state before the call to the state
after it.  The calls made to the graphics backend are appended, in program order,
to the field `gl`, so that "nothing was deleted or created" is a statement
about that log.

Modelling conventions:

* `double` and `GLfloat` values are exact rationals (`ℚ`), with two exceptions
  where the stored value decides a comparison: the position update of a puff
  stores its results as binary64 values (`to_double`, each operation rounded on
  its own), and the render size of `nebu_resize` may be an infinity or a NaN
  (`CFloat`).  Elsewhere rounding is not modelled, and overflow to an infinity
  is not modelled anywhere;
* what the file reads from its collaborators (configuration, screen, camera,
  menu, player, libm, the framebuffer helper, the colour conversion) is gathered
  in the record `Env`, passed to every function that reads it;
* the random generator is a record of the successive draws (`Rand`);
* the Lua side is a record of outcomes (`Lua`), the stack of `naevL` and the
  warnings are the record `LuaState`; `size_t` is a 64-bit word.
-/

namespace Naev

/-! ## C library arithmetic on exact rationals -/

/-- Conversion of a `double` to `int`: the fractional part is discarded
(truncation toward zero). -/
def c_trunc (q : ℚ) : Int := if 0 ≤ q then ⌊q⌋ else ⌈q⌉

/-- C `fmod(x, m)`: `x - m * n` where `n` is `x / m` truncated toward zero, so the
result has the sign of `x` and magnitude below that of `m`. -/
def fmod (x m : ℚ) : ℚ := x - m * (c_trunc (x / m) : ℚ)

/-- C `round` from libm: nearest integer, halfway cases away from zero. -/
def c_round (q : ℚ) : ℚ := if 0 ≤ q then (⌊q + 1 / 2⌋ : ℚ) else (⌈q - 1 / 2⌉ : ℚ)

/-- Nearest integer, halfway cases to the even one. -/
def round_half_even (q : ℚ) : Int :=
  if q - ⌊q⌋ < 1 / 2 then ⌊q⌋
  else if 1 / 2 < q - ⌊q⌋ then ⌊q⌋ + 1
  else if ⌊q⌋ % 2 = 0 then ⌊q⌋ else ⌊q⌋ + 1

/-- The binary exponent a `double` uses for `q`: the `e` with
`2^e ≤ |q| < 2^(e+1)`, and -1022 for smaller magnitudes (subnormals, zero). -/
def double_exponent (q : ℚ) : Int := max (Int.log 2 |q|) (-1022)

/-- The `double` a result `q` is stored as (IEEE 754 binary64, round to nearest,
ties to even): the nearest multiple of `2^(e - 52)`, `e` the exponent of `q`.
Magnitudes from `2^1024` on, which the machine turns into an infinity, are
outside this model. -/
def to_double (q : ℚ) : ℚ :=
  (round_half_even (q / 2 ^ (double_exponent q - 52)) : ℚ) * 2 ^ (double_exponent q - 52)

/-- A C floating-point value in the places where the code can produce a
non-finite one: a number, an infinity with its sign, or NaN. -/
inductive CFloat where
  | fin (q : ℚ)
  | inf (negative : Bool)
  | nan
  deriving DecidableEq, Repr

/-- C `==` on floating-point values: NaN equals nothing, itself included. -/
def CFloat.c_eq : CFloat → CFloat → Bool
  | CFloat.fin a, CFloat.fin b => decide (a = b)
  | CFloat.inf a, CFloat.inf b => decide (a = b)
  | _, _ => false

/-- C `-v / 2.` on a floating-point value. -/
def CFloat.neg_half : CFloat → CFloat
  | CFloat.fin q => CFloat.fin (-q / 2)
  | CFloat.inf negative => CFloat.inf (!negative)
  | CFloat.nan => CFloat.nan

/-- C `round(n / scale)` for a non-negative `int` `n` and a `double` `scale`:
`0 / 0` is NaN, a positive `n` over a zero is the infinity with the sign of that
zero (`negative_zero` for `-0.0`), and `round` keeps both; otherwise the
quotient is stored as a `double` and rounded to a whole number. -/
def c_round_div (n : Nat) (scale : ℚ) (negative_zero : Bool) : CFloat :=
  if scale = 0 then
    if n = 0 then CFloat.nan else CFloat.inf negative_zero
  else CFloat.fin (c_round (to_double ((n : ℚ) / scale)))

/-! ## Collaborators -/

/-- The `mat4` values built in `nebula.c`, kept as the terms that build them
(`mat4.c` is not part of the sources at hand). -/
inductive Mat4 where
  | zero
  | identity
  | view
  | ortho (l r b t n f : ℚ)
  | translate (m : Mat4) (x y z : CFloat)
  | scale (m : Mat4) (x y z : CFloat)
  deriving DecidableEq, Repr

/-- Shader programs named in `nebula.c`; `none` is program 0. -/
inductive Shader where
  | none | nebula | nebula_background | nebula_puff | texture | trail
  deriving DecidableEq, Repr

/-- Uniform and attribute locations named in `nebula.c`. -/
inductive Loc where
  | bg_projection | bg_eddy_scale | bg_time | bg_brightness | bg_hue | bg_volatility | bg_vertex
  | neb_projection | neb_horizon | neb_eddy_scale | neb_time | neb_brightness | neb_hue | neb_vertex
  | puff_projection | puff_time | puff_r | puff_nebu_col | puff_vertex
  | tex_vertex | tex_color | tex_projection | tex_tex_mat
  | trail_nebu_col
  deriving DecidableEq, Repr

/-- Vertex buffers used by the nebula. -/
inductive Vbo where
  | square | circle
  deriving DecidableEq, Repr

/-- Framebuffer named in a bind: an object id, or the screen's current one. -/
inductive FboTarget where
  | id (fbo : Nat)
  | screen_current
  deriving DecidableEq, Repr

/-- One call to the graphics backend, with the arguments it was given. -/
inductive GLCall where
  | glDeleteTextures (tex : Nat)
  | glDeleteFramebuffers (fbo : Nat)
  | gl_fboCreate (w h : CFloat)
  | glUseProgram (p : Shader)
  | mat4_Uniform (l : Loc) (m : Mat4)
  | glBindFramebuffer (t : FboTarget)
  | glClear
  | glClearColor (r g b a : ℚ)
  | glUniform1f (l : Loc) (v : ℚ)
  | glUniform2f (l : Loc) (v0 v1 : ℚ)
  | glUniform3f (l : Loc) (v0 v1 v2 : ℚ)
  | gl_uniformColor_white (l : Loc)
  | glEnableVertexAttribArray (l : Loc)
  | glDisableVertexAttribArray (l : Loc)
  | gl_vboActivateAttribOffset (v : Vbo) (l : Loc)
  | glBindTexture (tex : Nat)
  | glDrawArrays
  | gl_checkErr
  deriving DecidableEq, Repr

/-- Outcome of `gl_fboCreate`: whether the framebuffer is complete, and the ids
written through its two out-parameters. -/
structure FboResult where
  ok : Bool
  fbo : Nat
  tex : Nat
  deriving DecidableEq, Repr

/-- The part of `ShipStats` read by the nebula. -/
structure ShipStats where
  ew_detect : ℚ
  deriving DecidableEq, Repr

/-- The part of `Ship` read by `pilot_ship.c`: the Lua environment and the
registry references of the ship's Lua functions (`LUA_NOREF` when undefined). -/
structure Ship where
  name : List Char
  lua_env : Int
  lua_init : Int
  lua_cleanup : Int
  lua_update : Int
  lua_explode_init : Int
  lua_explode_update : Int
  deriving DecidableEq, Repr

/-- The part of `Pilot` read by the nebula and by `pilot_ship.c`. -/
structure Pilot where
  id : Nat
  name : List Char
  stats : ShipStats
  ship : Ship
  lua_ship_mem : Int
  deriving DecidableEq, Repr

/-- Everything `nebula.c` reads from outside itself.  Screen sizes are window
dimensions in pixels (natural numbers); `player_p` is `none` for a NULL
`player.p`; `scale_negative_zero` is the sign bit of the product
`conf.nebu_scale * gl_screen.scale` when that product is zero, which a rational
cannot carry. -/
structure Env where
  conf_nebu_scale : ℚ
  conf_nebu_brightness : ℚ
  gl_screen_scale : ℚ
  scale_negative_zero : Bool := false
  gl_screen_nw : Nat
  gl_screen_nh : Nat
  SCREEN_W : Nat
  SCREEN_H : Nat
  cam_zoom : ℚ
  menu_main_open : Bool
  player_p : Option Pilot
  pow : ℚ → ℚ → ℚ
  gl_fboCreate : CFloat → CFloat → FboResult
  col_hsv2rgb : ℚ → ℚ → ℚ → ℚ × ℚ × ℚ

/-- The random generator as the sequence of its draws: `rngf k` is what the
`k`-th draw returns when it is an `RNGF()`, `rng k lo hi` when it is an
`RNG(lo, hi)`. -/
structure Rand where
  rngf : Nat → ℚ
  rng : Nat → Int → Int → Int

/-! ## State -/

/-- Macro `NEBULA_PUFF_BUFFER`. -/
def NEBULA_PUFF_BUFFER : ℚ := 300

/-- Constant `GL_INVALID_VALUE`. -/
def GL_INVALID_VALUE : Nat := 0x0501

/-- C struct `NebulaPuff`. -/
structure NebulaPuff where
  x : ℚ
  y : ℚ
  height : ℚ
  s : ℚ
  rx : ℚ
  ry : ℚ
  deriving DecidableEq, Repr

/-- The file-scope variables of `nebula.c`, and the log of backend calls. -/
structure Nebula where
  nebu_hue : ℚ
  nebu_density : ℚ
  nebu_dx : ℚ
  nebu_view : ℚ
  nebu_dt : ℚ
  nebu_time : ℚ
  nebu_scale : ℚ
  nebu_dofbo : Bool
  nebu_fbo : Nat
  nebu_tex : Nat
  nebu_render_w : CFloat
  nebu_render_h : CFloat
  nebu_render_P : Mat4
  nebu_puffs : List NebulaPuff
  nebu_npuffs : Int
  puff_x : ℚ
  puff_y : ℚ
  gl : List GLCall
  deriving DecidableEq, Repr

/-- The initialisers of the file-scope variables. -/
def initial : Nebula where
  nebu_hue := 0
  nebu_density := 0
  nebu_dx := 0
  nebu_view := 0
  nebu_dt := 0
  nebu_time := 0
  nebu_scale := 4
  nebu_dofbo := false
  nebu_fbo := GL_INVALID_VALUE
  nebu_tex := GL_INVALID_VALUE
  nebu_render_w := CFloat.fin 0
  nebu_render_h := CFloat.fin 0
  nebu_render_P := Mat4.zero
  nebu_puffs := []
  nebu_npuffs := 0
  puff_x := 0
  puff_y := 0
  gl := []

/-- Append backend calls to the log. -/
def Nebula.emit (s : Nebula) (cs : List GLCall) : Nebula :=
  { s with gl := s.gl ++ cs }

/-! ## Functions of `nebula.c` -/

/-- The local `scale` of `nebu_resize`: configured scale times display scale, as
the `double` it is stored in (a product too small for a `double` is 0). -/
def resize_scale (e : Env) : ℚ := to_double (e.conf_nebu_scale * e.gl_screen_scale)

/-- The local `fbo_w` of `nebu_resize`. -/
def resize_fbo_w (e : Env) : CFloat :=
  c_round_div e.gl_screen_nw (resize_scale e) e.scale_negative_zero

/-- The local `fbo_h` of `nebu_resize`. -/
def resize_fbo_h (e : Env) : CFloat :=
  c_round_div e.gl_screen_nh (resize_scale e) e.scale_negative_zero

/-- The test guarding the early `return 0` of `nebu_resize`. -/
def resize_unchanged (e : Env) (s : Nebula) : Bool :=
  decide (resize_scale e = s.nebu_scale) && (resize_fbo_w e).c_eq s.nebu_render_w
    && (resize_fbo_h e).c_eq s.nebu_render_h

/-- C `nebu_resize`: the return value and the state after the call. -/
def nebu_resize (e : Env) (s : Nebula) : Int × Nebula :=
  if resize_unchanged e s then (0, s)
  else
    let s1 : Nebula := { s with
      nebu_scale := resize_scale e
      nebu_render_w := resize_fbo_w e
      nebu_render_h := resize_fbo_h e
      nebu_dofbo := decide (resize_scale e ≠ 1) }
    let s2 := s1.emit [GLCall.glDeleteTextures s1.nebu_tex, GLCall.glDeleteFramebuffers s1.nebu_fbo]
    let s3 : Nebula :=
      if s2.nebu_dofbo then
        let r := e.gl_fboCreate s2.nebu_render_w s2.nebu_render_h
        { s2.emit [GLCall.gl_fboCreate s2.nebu_render_w s2.nebu_render_h] with
          nebu_fbo := r.fbo, nebu_tex := r.tex }
      else s2
    let P0 := Mat4.identity
    let P1 := Mat4.translate P0 s3.nebu_render_w.neg_half s3.nebu_render_h.neg_half
      (CFloat.fin 0)
    let P2 := Mat4.scale P1 s3.nebu_render_w s3.nebu_render_h (CFloat.fin 1)
    let s4 : Nebula := { s3 with nebu_render_P := P2 }
    (0, s4.emit [GLCall.glUseProgram Shader.nebula_background,
                 GLCall.mat4_Uniform Loc.bg_projection s4.nebu_render_P,
                 GLCall.glUseProgram Shader.nebula,
                 GLCall.mat4_Uniform Loc.neb_projection s4.nebu_render_P,
                 GLCall.glUseProgram Shader.none])

/-- C `nebu_init`; the draw of `RNGF()` is draw 0 of `r`. -/
def nebu_init (e : Env) (r : Rand) (s : Nebula) : Int × Nebula :=
  nebu_resize e { s with nebu_time := -1000 * r.rngf 0 }

/-- C `nebu_getSightRadius`. -/
def nebu_getSightRadius (s : Nebula) : ℚ := s.nebu_view

/-- C `nebu_exit`. -/
def nebu_exit (s : Nebula) : Nebula :=
  if s.nebu_dofbo then
    s.emit [GLCall.glDeleteFramebuffers s.nebu_fbo, GLCall.glDeleteTextures s.nebu_tex]
  else s

/-- C `nebu_blitFBO`. -/
def nebu_blitFBO (s : Nebula) : Nebula :=
  if !s.nebu_dofbo then s
  else
    s.emit [GLCall.glBindFramebuffer FboTarget.screen_current,
            GLCall.glUseProgram Shader.texture,
            GLCall.glBindTexture s.nebu_tex,
            GLCall.glEnableVertexAttribArray Loc.tex_vertex,
            GLCall.gl_vboActivateAttribOffset Vbo.square Loc.tex_vertex,
            GLCall.gl_uniformColor_white Loc.tex_color,
            GLCall.mat4_Uniform Loc.tex_projection (Mat4.ortho 0 1 0 1 1 (-1)),
            GLCall.mat4_Uniform Loc.tex_tex_mat Mat4.identity,
            GLCall.glDrawArrays,
            GLCall.glDisableVertexAttribArray Loc.tex_vertex]

/-- C `nebu_renderBackground`. -/
def nebu_renderBackground (e : Env) (dt : ℚ) (s : Nebula) : Nebula :=
  let s1 : Nebula := { s with nebu_time := s.nebu_time + dt * s.nebu_dt }
  let s2 :=
    if s1.nebu_dofbo then
      s1.emit [GLCall.glBindFramebuffer (FboTarget.id s1.nebu_fbo), GLCall.glClear]
    else s1
  let s3 := s2.emit [GLCall.glUseProgram Shader.nebula_background,
    GLCall.glUniform1f Loc.bg_eddy_scale (s2.nebu_view * e.cam_zoom / s2.nebu_scale),
    GLCall.glUniform1f Loc.bg_time s2.nebu_time,
    GLCall.glUniform1f Loc.bg_brightness e.conf_nebu_brightness,
    GLCall.glEnableVertexAttribArray Loc.bg_vertex,
    GLCall.gl_vboActivateAttribOffset Vbo.square Loc.bg_vertex,
    GLCall.glDrawArrays]
  let s4 := nebu_blitFBO s3
  s4.emit [GLCall.glDisableVertexAttribArray Loc.bg_vertex,
           GLCall.glUseProgram Shader.none,
           GLCall.gl_checkErr]

/-- C `nebu_update`. -/
def nebu_update (e : Env) (_dt : ℚ) (s : Nebula) : Nebula :=
  let mod : ℚ :=
    match e.player_p with
    | some p => p.stats.ew_detect
    | none => 1
  { s with nebu_view := (1000 - s.nebu_density) * mod }

/-- The layer test of `nebu_renderPuffs`: `true` when the loop body hits the
first `continue` for a puff of this height. -/
def puff_wrong_layer (below_player : Int) (height : ℚ) : Bool :=
  (decide (below_player = 0) && decide (height < 1))
    || (decide (below_player ≠ 0) && decide (height > 1))

/-- The width of the wrapped playfield, `SCREEN_W + 2.*NEBULA_PUFF_BUFFER`. -/
def field_w (e : Env) : ℚ := (e.SCREEN_W : ℚ) + 2 * NEBULA_PUFF_BUFFER

/-- The height of the wrapped playfield, `SCREEN_H + 2.*NEBULA_PUFF_BUFFER`. -/
def field_h (e : Env) : ℚ := (e.SCREEN_H : ℚ) + 2 * NEBULA_PUFF_BUFFER

/-- One coordinate of the "calculate new position" and "check boundaries"
steps: add the displacement, `fmod`, then add the period when negative.  The
product and the two sums are each stored as a `double`; `fmod` is exact. -/
def puff_wrap (pos disp height period : ℚ) : ℚ :=
  let p1 := to_double (pos + to_double (disp * height))
  let p2 := fmod p1 period
  if p2 < 0 then to_double (p2 + period) else p2

/-- The puff after the position update of one loop iteration. -/
def puff_moved (e : Env) (s : Nebula) (puff : NebulaPuff) : NebulaPuff :=
  { puff with
    x := puff_wrap puff.x s.puff_x puff.height (field_w e)
    y := puff_wrap puff.y s.puff_y puff.height (field_h e) }

/-- The quick visibility check of one loop iteration, on the moved puff:
`true` when the puff is off screen and the body hits the second `continue`. -/
def puff_offscreen (e : Env) (puff : NebulaPuff) : Bool :=
  let z := e.cam_zoom
  let s := puff.s * z
  let x := puff.x - NEBULA_PUFF_BUFFER - s
  let y := puff.y - NEBULA_PUFF_BUFFER - s
  decide (x < -s) || decide (x > (e.SCREEN_W : ℚ) + s)
    || decide (y < -s) || decide (y > (e.SCREEN_H : ℚ) + s)

/-- The backend calls that draw one puff. -/
def puff_draw (e : Env) (s : Nebula) (puff : NebulaPuff) : List GLCall :=
  let z := e.cam_zoom
  let sz := puff.s * z
  let x := puff.x - NEBULA_PUFF_BUFFER - sz
  let y := puff.y - NEBULA_PUFF_BUFFER - sz
  let projection := Mat4.scale (Mat4.translate Mat4.view (CFloat.fin x) (CFloat.fin y)
    (CFloat.fin 0)) (CFloat.fin sz) (CFloat.fin sz) (CFloat.fin 1)
  [GLCall.glUseProgram Shader.nebula_puff,
   GLCall.glEnableVertexAttribArray Loc.puff_vertex,
   GLCall.gl_vboActivateAttribOffset Vbo.circle Loc.puff_vertex,
   GLCall.mat4_Uniform Loc.puff_projection projection,
   GLCall.glUniform1f Loc.puff_time (s.nebu_time / (3 / 2)),
   GLCall.glUniform2f Loc.puff_r puff.rx puff.ry,
   GLCall.glDrawArrays,
   GLCall.glDisableVertexAttribArray Loc.puff_vertex,
   GLCall.glUseProgram Shader.none,
   GLCall.gl_checkErr]

/-- The body of the loop of `nebu_renderPuffs` for index `i`. -/
def nebu_renderPuff (e : Env) (below_player : Int) (s : Nebula) (i : Nat) : Nebula :=
  match s.nebu_puffs.get? i with
  | none => s
  | some puff =>
    if puff_wrong_layer below_player puff.height then s
    else
      let puff1 := puff_moved e s puff
      let s1 : Nebula := { s with nebu_puffs := s.nebu_puffs.set i puff1 }
      if puff_offscreen e puff1 then s1
      else s1.emit (puff_draw e s1 puff1)

/-- C `nebu_renderPuffs`: nothing while the main menu is open, otherwise the
loop body for `i = 0 .. nebu_npuffs - 1`. -/
def nebu_renderPuffs (e : Env) (below_player : Int) (s : Nebula) : Nebula :=
  if e.menu_main_open then s
  else (List.range s.nebu_npuffs.toNat).foldl (nebu_renderPuff e below_player) s

/-- C `nebu_render`. -/
def nebu_render (e : Env) (dt : ℚ) (s : Nebula) : Nebula :=
  nebu_renderPuffs e 1 (nebu_renderBackground e dt s)

/-- C `nebu_renderOverlay`. -/
def nebu_renderOverlay (e : Env) (_dt : ℚ) (s : Nebula) : Nebula :=
  let z := e.cam_zoom
  let s1 := nebu_renderPuffs e 0 s
  let s2 :=
    if s1.nebu_dofbo then
      s1.emit [GLCall.glBindFramebuffer (FboTarget.id s1.nebu_fbo),
               GLCall.glClearColor 0 0 0 0, GLCall.glClear]
    else s1
  let s3 := s2.emit [GLCall.glUseProgram Shader.nebula,
    GLCall.glUniform1f Loc.neb_horizon (s2.nebu_view * z / s2.nebu_scale),
    GLCall.glUniform1f Loc.neb_eddy_scale (s2.nebu_dx * z / s2.nebu_scale),
    GLCall.glUniform1f Loc.neb_time s2.nebu_time,
    GLCall.glUniform1f Loc.neb_brightness e.conf_nebu_brightness,
    GLCall.glEnableVertexAttribArray Loc.neb_vertex,
    GLCall.gl_vboActivateAttribOffset Vbo.square Loc.neb_vertex,
    GLCall.glDrawArrays]
  let s4 := nebu_blitFBO s3
  let s5 := s4.emit [GLCall.glDisableVertexAttribArray Loc.neb_vertex,
                     GLCall.glClearColor 0 0 0 1,
                     GLCall.glUseProgram Shader.none,
                     GLCall.gl_checkErr]
  { s5 with puff_x := 0, puff_y := 0 }

/-- C `nebu_movePuffs`. -/
def nebu_movePuffs (x y : ℚ) (s : Nebula) : Nebula :=
  { s with puff_x := s.puff_x + x, puff_y := s.puff_y + y }

/-- The puff written by iteration `i` of the seeding loop of `nebu_prep`: six
draws, in statement order. -/
def prep_puff (e : Env) (r : Rand) (i : Nat) : NebulaPuff where
  x := field_w e * r.rngf (6 * i)
  y := field_h e * r.rngf (6 * i + 1)
  s := (r.rng (6 * i + 2) 10 32 : ℚ)
  height := r.rngf (6 * i + 3) + 1 / 5
  rx := r.rngf (6 * i + 4) * 2000 - 1000
  ry := r.rngf (6 * i + 5) * 2000 - 1000

/-- C `nebu_prep`. -/
def nebu_prep (e : Env) (r : Rand) (density volatility hue : ℚ) (s : Nebula) : Nebula :=
  let s1 : Nebula := { s with nebu_hue := hue }
  let col1 := e.col_hsv2rgb (s1.nebu_hue * 360) (7 / 10) 1
  let col2 := e.col_hsv2rgb (s1.nebu_hue * 360) (95 / 100) 1
  let s2 := s1.emit [GLCall.glUseProgram Shader.nebula,
    GLCall.glUniform1f Loc.neb_hue s1.nebu_hue,
    GLCall.glUseProgram Shader.nebula_background,
    GLCall.glUniform1f Loc.bg_hue s1.nebu_hue,
    GLCall.glUniform1f Loc.bg_volatility volatility,
    GLCall.glUseProgram Shader.trail,
    GLCall.glUniform3f Loc.trail_nebu_col col1.1 col1.2.1 col1.2.2,
    GLCall.glUseProgram Shader.nebula_puff,
    GLCall.glUniform3f Loc.puff_nebu_col col2.1 col2.2.1 col2.2.2,
    GLCall.glUseProgram Shader.none]
  let s3 := nebu_update e 0 { s2 with nebu_density := density }
  let s4 : Nebula := { s3 with
    nebu_dt := (2 * density + 200) / 10000
    nebu_dx := 15000 / e.pow density (1 / 3)
    nebu_time := 0 }
  let n : Int := c_trunc (density / 2)
  { s4 with
    nebu_npuffs := n
    nebu_puffs := (List.range n.toNat).map (prep_puff e r) }

/-- A puff lies in the playfield of a `w` by `h` screen padded by the buffer. -/
def NebulaPuff.in_field (w h : Nat) (p : NebulaPuff) : Prop :=
  0 ≤ p.x ∧ p.x < (w : ℚ) + 2 * NEBULA_PUFF_BUFFER
    ∧ 0 ≤ p.y ∧ p.y < (h : ℚ) + 2 * NEBULA_PUFF_BUFFER

/-- One iteration of the puff loop seen on the puff alone: left as it is on the
wrong layer, moved otherwise. -/
def puff_pass (e : Env) (below_player : Int) (s : Nebula) (puff : NebulaPuff) : NebulaPuff :=
  if puff_wrong_layer below_player puff.height then puff else puff_moved e s puff

/-- The state with both seeded lists emptied: what is left is every variable
that the loop of `nebu_renderPuffs` only reads. -/
def Nebula.core (s : Nebula) : Nebula := { s with nebu_puffs := [], gl := [] }

/-! ## Trail ring buffer (`spfx.h`) -/

/-- Number of values of a `size_t` (64 bits). -/
def SIZE_T_MOD : Nat := 2 ^ 64

/-- C struct `glColour`. -/
structure glColour where
  r : ℚ
  g : ℚ
  b : ℚ
  a : ℚ
  deriving DecidableEq, Repr

/-- C struct `TrailPoint`. -/
structure TrailPoint where
  x : ℚ
  y : ℚ
  c : glColour
  t : ℚ
  thickness : ℚ
  deriving DecidableEq, Repr

/-- C struct `Trail_spfx`; the `size_t` fields hold values below `SIZE_T_MOD`. -/
structure Trail_spfx where
  ttl : ℚ
  type : Nat
  point_ringbuf : List TrailPoint
  capacity : Nat
  iread : Nat
  iwrite : Nat
  refcount : Int
  dt : ℚ
  nebula : Int
  r : ℚ
  deriving DecidableEq, Repr

/-- The subscript of macro `trail_at`, `(i) & ((trail)->capacity - 1)`, computed
on `size_t` words. -/
def trail_at_index (trail : Trail_spfx) (i : Nat) : Nat :=
  (i % SIZE_T_MOD) &&& ((trail.capacity + SIZE_T_MOD - 1) % SIZE_T_MOD)

/-- Macro `trail_at`: the element of the ring buffer at that subscript (`none`
when the subscript is outside the buffer). -/
def trail_at (trail : Trail_spfx) (i : Nat) : Option TrailPoint :=
  trail.point_ringbuf.get? (trail_at_index trail i)

/-- Macro `trail_size`, on `size_t` words. -/
def trail_size (trail : Trail_spfx) : Nat :=
  (trail.iwrite + SIZE_T_MOD - trail.iread % SIZE_T_MOD) % SIZE_T_MOD

/-- Macro `trail_front`. -/
def trail_front (trail : Trail_spfx) : Option TrailPoint :=
  trail_at trail trail.iread

/-- Macro `trail_back`. -/
def trail_back (trail : Trail_spfx) : Option TrailPoint :=
  trail_at trail ((trail.iwrite + SIZE_T_MOD - 1) % SIZE_T_MOD)

/-! ## Lua collaborators (`cond.c`, `pilot_ship.c`) -/

/-- Constant `LUA_NOREF`. -/
def LUA_NOREF : Int := -2

/-- Constant `LUA_ERRRUN`. -/
def LUA_ERRRUN : Int := 2

/-- Constant `LUA_ERRSYNTAX`. -/
def LUA_ERRSYNTAX : Int := 3

/-- Constant `LUA_ERRMEM`. -/
def LUA_ERRMEM : Int := 4

/-- Constant `LUA_ERRERR`. -/
def LUA_ERRERR : Int := 5

/-- Values on the Lua stack, as far as these files tell them apart:
`registry ref` is what `lua_rawgeti` reads from the registry at `ref`. -/
inductive LuaValue where
  | nil
  | boolean (b : Bool)
  | number (n : ℚ)
  | string (s : List Char)
  | table
  | registry (ref : Int)
  | pilot (id : Nat)
  deriving DecidableEq, Repr

/-- Outcome of running Lua code (`nlua_dobufenv`, `nlua_pcall`): the status
returned and the values left on the stack, top first (the results, or the error
message). -/
structure LuaCall where
  status : Int
  pushed : List LuaValue
  deriving DecidableEq, Repr

/-- The Lua side, not part of the sources at hand: what running a buffer in an
environment gives, what calling a function with arguments in an environment
gives, and the reference `luaL_ref` hands out for a value. -/
structure Lua where
  nlua_dobufenv : Int → List Char → LuaCall
  nlua_pcall : Int → LuaValue → List LuaValue → LuaCall
  luaL_ref : LuaValue → Int

/-- The warnings of `cond_check`, with the Lua error message when there is one. -/
inductive CondWarning where
  | syntax_error (msg : Option LuaValue)
  | runtime_error (msg : Option LuaValue)
  | out_of_memory (msg : Option LuaValue)
  | error_in_handler (msg : Option LuaValue)
  | not_a_boolean
  deriving DecidableEq, Repr

/-- What the Lua-facing functions do besides changing the stack. -/
inductive LuaEvent where
  | luaL_ref (v : LuaValue) (ref : Int)
  | luaL_unref (ref : Int)
  | nlua_setenv_mem (env : Int) (v : LuaValue)
  | print_with_line_numbers (cond : List Char)
  | cond_warn (w : CondWarning)
  | shipLRunWarning (pilot : List Char) (ship : List Char) (name : List Char)
      (error : Option LuaValue)
  deriving DecidableEq, Repr

/-- The stack of `naevL`, top first, and the events so far. -/
structure LuaState where
  stack : List LuaValue
  log : List LuaEvent
  deriving DecidableEq, Repr

/-- The characters of the C string literal `return`. -/
def str_return : List Char := ['r', 'e', 't', 'u', 'r', 'n']

/-- Whether C `strstr(hay, needle)` is not NULL: `needle` occurs in `hay`. -/
def strstr_found : List Char → List Char → Bool
  | [], needle => needle.isEmpty
  | c :: cs, needle => needle.isPrefixOf (c :: cs) || strstr_found cs needle

/-! ## Functions of `cond.c` -/

/-- The label `cond_err` of `cond_check`: print the condition, warn, clear the
stack, return -1. -/
def cond_check_err (ls : LuaState) (cond : List Char) (w : CondWarning) : Int × LuaState :=
  (-1, { stack := [],
         log := ls.log ++ [LuaEvent.print_with_line_numbers cond, LuaEvent.cond_warn w] })

/-- C `cond_check`; `cond_env` is the file-scope environment, read only. -/
def cond_check (L : Lua) (cond_env : Int) (ls : LuaState) (cond : List Char) : Int × LuaState :=
  let ls1 : LuaState :=
    if strstr_found cond str_return then
      { ls with stack := LuaValue.string cond :: ls.stack }
    else
      { ls with stack := LuaValue.string (str_return ++ [' '] ++ cond) :: ls.stack }
  let buf : List Char :=
    match ls1.stack.head? with
    | some (LuaValue.string s) => s
    | _ => []
  let r := L.nlua_dobufenv cond_env buf
  let ls2 : LuaState := { ls1 with stack := r.pushed ++ ls1.stack }
  let ret := r.status
  if ret = LUA_ERRSYNTAX then
    cond_check_err ls2 cond (CondWarning.syntax_error ls2.stack.head?)
  else if ret = LUA_ERRRUN then
    cond_check_err ls2 cond (CondWarning.runtime_error ls2.stack.head?)
  else if ret = LUA_ERRMEM then
    cond_check_err ls2 cond (CondWarning.out_of_memory ls2.stack.head?)
  else if ret = LUA_ERRERR then
    cond_check_err ls2 cond (CondWarning.error_in_handler ls2.stack.head?)
  else
    match ls2.stack.head? with
    | some (LuaValue.boolean b) => (if b then 1 else 0, { ls2 with stack := [] })
    | _ => cond_check_err ls2 cond CondWarning.not_a_boolean

/-! ## Functions of `pilot_ship.c` -/

/-- C `pilot_shipLmem`: push the pilot's memory table and store it as `mem` in
the ship's environment (which pops it). -/
def pilot_shipLmem (ls : LuaState) (p : Pilot) : LuaState :=
  { ls with log := ls.log
      ++ [LuaEvent.nlua_setenv_mem p.ship.lua_env (LuaValue.registry p.lua_ship_mem)] }

/-- The call shared by the functions of `pilot_ship.c`: push function `f` and
the arguments, then `nlua_pcall`; when it returns non-zero, warn with the error
message and pop it.  The result says whether `nlua_pcall` returned non-zero. -/
def pilot_shipL_pcall (L : Lua) (ls : LuaState) (p : Pilot) (f : Int) (args : List LuaValue)
    (name : List Char) : Bool × LuaState :=
  let r := L.nlua_pcall p.ship.lua_env (LuaValue.registry f) args
  let ls1 : LuaState := { ls with stack := r.pushed ++ ls.stack }
  if r.status ≠ 0 then
    (true, { stack := ls1.stack.tail,
             log := ls1.log ++ [LuaEvent.shipLRunWarning p.name p.ship.name name ls1.stack.head?] })
  else (false, ls1)

/-- C `pilot_shipLInit`: the return value, the pilot and the Lua state after. -/
def pilot_shipLInit (L : Lua) (ls : LuaState) (p : Pilot) : Int × Pilot × LuaState :=
  let ref := L.luaL_ref LuaValue.table
  let p1 : Pilot := if p.lua_ship_mem = LUA_NOREF then { p with lua_ship_mem := ref } else p
  let ls1 : LuaState :=
    if p.lua_ship_mem = LUA_NOREF then
      { ls with log := ls.log ++ [LuaEvent.luaL_ref LuaValue.table ref] }
    else ls
  if p1.ship.lua_init = LUA_NOREF then (0, p1, ls1)
  else
    let ls2 := pilot_shipLmem ls1 p1
    let r := pilot_shipL_pcall L ls2 p1 p1.ship.lua_init [LuaValue.pilot p1.id]
      ['i', 'n', 'i', 't']
    if r.1 then (-1, p1, r.2)
    else (1, p1, r.2)

/-- C `pilot_shipLCleanup`. -/
def pilot_shipLCleanup (L : Lua) (ls : LuaState) (p : Pilot) : Int × Pilot × LuaState :=
  let r : Bool × LuaState :=
    if p.ship.lua_cleanup ≠ LUA_NOREF then
      pilot_shipL_pcall L (pilot_shipLmem ls p) p p.ship.lua_cleanup [LuaValue.pilot p.id]
        ['c', 'l', 'e', 'a', 'n', 'u', 'p']
    else (false, ls)
  if r.1 then (-1, p, r.2)
  else if p.lua_ship_mem ≠ LUA_NOREF then
    (0, { p with lua_ship_mem := LUA_NOREF },
      { r.2 with log := r.2.log ++ [LuaEvent.luaL_unref p.lua_ship_mem] })
  else (0, p, r.2)

/-- C `pilot_shipLUpdate`. -/
def pilot_shipLUpdate (L : Lua) (ls : LuaState) (p : Pilot) (dt : ℚ) : Int × LuaState :=
  if p.ship.lua_update = LUA_NOREF then (0, ls)
  else
    let r := pilot_shipL_pcall L ls p p.ship.lua_update [LuaValue.pilot p.id, LuaValue.number dt]
      ['u', 'p', 'd', 'a', 't', 'e']
    if r.1 then (-1, r.2)
    else (0, r.2)

/-- C `pilot_shipLExplodeInit`. -/
def pilot_shipLExplodeInit (L : Lua) (ls : LuaState) (p : Pilot) : Int × LuaState :=
  if p.ship.lua_explode_init = LUA_NOREF then (0, ls)
  else
    let r := pilot_shipL_pcall L (pilot_shipLmem ls p) p p.ship.lua_explode_init
      [LuaValue.pilot p.id] ['e', 'x', 'p', 'l', 'o', 'd', 'e', '_', 'i', 'n', 'i', 't']
    if r.1 then (-1, r.2)
    else (0, r.2)

/-- C `pilot_shipLExplodeUpdate`. -/
def pilot_shipLExplodeUpdate (L : Lua) (ls : LuaState) (p : Pilot) (dt : ℚ) : Int × LuaState :=
  if p.ship.lua_explode_update = LUA_NOREF then (0, ls)
  else
    let r := pilot_shipL_pcall L (pilot_shipLmem ls p) p p.ship.lua_explode_update
      [LuaValue.pilot p.id, LuaValue.number dt]
      ['e', 'x', 'p', 'l', 'o', 'd', 'e', '_', 'u', 'p', 'd', 'a', 't', 'e']
    if r.1 then (-1, r.2)
    else (0, r.2)

/-- Whether a backend call sets the eddy-scale uniform of the background shader. -/
def is_bg_eddy_scale : GLCall → Bool
  | GLCall.glUniform1f Loc.bg_eddy_scale _ => true
  | _ => false

/-- The text `cond_check` hands to Lua for a condition: the condition itself when
it contains `return`, otherwise `return ` followed by the condition. -/
def cond_chunk (cond : List Char) : List Char :=
  if strstr_found cond str_return then cond else str_return ++ [' '] ++ cond

/-! ## Sample inputs -/

/-- A sample environment: 1280x720 window, scale 4 on a scale-1 display, zoom 1,
main menu closed, no player. -/
def sample_env : Env where
  conf_nebu_scale := 4
  conf_nebu_brightness := 1
  gl_screen_scale := 1
  gl_screen_nw := 1280
  gl_screen_nh := 720
  SCREEN_W := 1280
  SCREEN_H := 720
  cam_zoom := 1
  menu_main_open := false
  player_p := none
  pow := fun _ _ => 1
  gl_fboCreate := fun _ _ => { ok := true, fbo := 1, tex := 1 }
  col_hsv2rgb := fun _ _ _ => (1, 1, 1)

/-- A sample generator: every `RNGF()` returns 1/2 and every `RNG(lo, hi)`
returns `lo`. -/
def sample_rand : Rand where
  rngf := fun _ => 1 / 2
  rng := fun _ lo _ => lo

/-- A generator whose height draw for puff 0 returns 4/5, so that the puff is
seeded at height exactly 1; every other `RNGF()` returns 1/2. -/
def level_rand : Rand where
  rngf := fun k => if k = 3 then 4 / 5 else 1 / 2
  rng := fun _ lo _ => lo

/-- One puff at height exactly 1, seeded by `nebu_prep` at density 2, with a
pending displacement of (10, 0) from `nebu_movePuffs`. -/
def level_state : Nebula :=
  nebu_movePuffs 10 0 (nebu_prep sample_env level_rand 2 0 0 initial)

/-- The sample environment with a 1x1 window: the render size rounds to 0x0. -/
def tiny_env : Env := { sample_env with gl_screen_nw := 1, gl_screen_nh := 1 }

/-- The sample environment with a configured scale of 0 and a window 0 pixels
wide: the render width is `round(0 / 0.)`. -/
def zero_env : Env := { sample_env with conf_nebu_scale := 0, gl_screen_nw := 0 }

/-- A sample ring buffer point. -/
def sample_point : TrailPoint :=
  { x := 0, y := 0, c := { r := 1, g := 1, b := 1, a := 1 }, t := 1, thickness := 1 }

/-- A sample trail of capacity 16 holding three points. -/
def sample_trail : Trail_spfx where
  ttl := 2
  type := 0
  point_ringbuf := List.replicate 16 sample_point
  capacity := 16
  iread := 0
  iwrite := 3
  refcount := 1
  dt := 0
  nebula := 0
  r := 1 / 2

/-- A sample Lua side: every buffer evaluates to the boolean true, every call
succeeds with no result, and `luaL_ref` hands out reference 7. -/
def sample_lua : Lua where
  nlua_dobufenv := fun _ _ => { status := 0, pushed := [LuaValue.boolean true] }
  nlua_pcall := fun _ _ _ => { status := 0, pushed := [] }
  luaL_ref := fun _ => 7

/-- An empty Lua stack and no events. -/
def sample_lua_state : LuaState := { stack := [], log := [] }

/-- A sample ship defining `init` (reference 3) and `explode_init` (reference 4)
and no other Lua function. -/
def sample_ship : Ship where
  name := ['L', 'l', 'a', 'm', 'a']
  lua_env := 1
  lua_init := 3
  lua_cleanup := LUA_NOREF
  lua_update := LUA_NOREF
  lua_explode_init := 4
  lua_explode_update := LUA_NOREF

/-- A sample pilot flying the sample ship, with no memory table yet. -/
def sample_pilot : Pilot where
  id := 1
  name := ['A', 'c', 'e']
  stats := { ew_detect := 1 }
  ship := sample_ship
  lua_ship_mem := LUA_NOREF

/-- The nebula prepared at density 1 in the sample environment with no player:
no puff, view radius 999, turbulence length-scale 15000 / 1^(1/3) = 15000. -/
def thin_state : Nebula := nebu_prep sample_env sample_rand 1 0 0 initial

/-! ## Arithmetic lemmas -/

theorem c_trunc_of_nonneg {q : ℚ} (h : 0 ≤ q) : c_trunc q = ⌊q⌋ := by
  simp [c_trunc, h]

theorem round_half_even_of_near (q : ℚ) (m : Int) (h : |q - m| < 1 / 2) :
    round_half_even q = m := by
  rw [abs_lt] at h
  obtain ⟨h1, h2⟩ := h
  unfold round_half_even
  rcases le_or_lt (m : ℚ) q with hle | hlt
  · have hf : ⌊q⌋ = m := by
      rw [Int.floor_eq_iff]
      constructor <;> linarith
    rw [hf, if_pos (by linarith)]
  · have hf : ⌊q⌋ = m - 1 := by
      rw [Int.floor_eq_iff]
      push_cast
      constructor <;> linarith
    rw [hf]
    push_cast
    rw [if_neg (by linarith), if_pos (by linarith)]
    ring

theorem round_half_even_intCast (m : Int) : round_half_even (m : ℚ) = m :=
  round_half_even_of_near _ m (by simp)

theorem int_log_two_eq {r : ℚ} {k : Int} (h0 : 0 < r) (h1 : (2 : ℚ) ^ k ≤ r)
    (h2 : r < (2 : ℚ) ^ (k + 1)) : Int.log 2 r = k := by
  have a : k ≤ Int.log 2 r := (Int.zpow_le_iff_le_log (by norm_num) h0).mp (by exact_mod_cast h1)
  have b : Int.log 2 r < k + 1 :=
    (Int.lt_zpow_iff_log_lt (by norm_num) h0).mp (by exact_mod_cast h2)
  omega

theorem to_double_of_near (q : ℚ) (E m : Int) (hE : double_exponent q = E)
    (hm : |q / 2 ^ (E - 52) - m| < 1 / 2) : to_double q = (m : ℚ) * 2 ^ (E - 52) := by
  unfold to_double
  rw [hE, round_half_even_of_near _ m hm]

/-- Exponent of a positive value below `2^53` is at most 52. -/
theorem double_exponent_le {y : ℚ} (h0 : 0 < y) (h1 : y < 2 ^ 53) : double_exponent y ≤ 52 := by
  unfold double_exponent
  have hy : |y| = y := abs_of_pos h0
  rw [hy]
  have : Int.log 2 y < 53 :=
    (Int.lt_zpow_iff_log_lt (by norm_num) h0).mp (by exact_mod_cast h1)
  omega

theorem two_zpow_pos (k : Int) : (0 : ℚ) < 2 ^ k := zpow_pos (by norm_num) k

/-- A natural number is a whole number of units below exponent 52. -/
theorem nat_div_ulp (n : Nat) (E : Int) (hE : E ≤ 52) :
    (n : ℚ) / 2 ^ (E - 52) = ((n * 2 ^ (52 - E).toNat : Int) : ℚ) := by
  have hk : (52 - E).toNat = 52 - E := Int.toNat_of_nonneg (by omega)
  have : (2 : ℚ) ^ (E - 52) = ((2 : ℚ) ^ (52 - E).toNat)⁻¹ := by
    rw [← zpow_natCast, hk, ← zpow_neg]
    congr 1
    ring
  rw [this]
  push_cast
  field_simp

/-- A natural number below `2^53` is stored exactly. -/
theorem to_double_natCast (n : Nat) (h : n < 2 ^ 53) : to_double (n : ℚ) = n := by
  rcases Nat.eq_zero_or_pos n with h0 | h0
  · subst h0
    simp [to_double, round_half_even]
  · have hq : (0 : ℚ) < n := by exact_mod_cast h0
    have hlt : (n : ℚ) < 2 ^ 53 := by exact_mod_cast h
    have hE := double_exponent_le hq hlt
    unfold to_double
    rw [nat_div_ulp n _ hE, round_half_even_intCast, ← nat_div_ulp n _ hE]
    have := two_zpow_pos (double_exponent (n : ℚ) - 52)
    field_simp

theorem field_w_pos (e : Env) : 0 < field_w e := by
  have : (0 : ℚ) ≤ (e.SCREEN_W : ℚ) := Nat.cast_nonneg _
  unfold field_w NEBULA_PUFF_BUFFER
  linarith

theorem field_h_pos (e : Env) : 0 < field_h e := by
  have : (0 : ℚ) ≤ (e.SCREEN_H : ℚ) := Nat.cast_nonneg _
  unfold field_h NEBULA_PUFF_BUFFER
  linarith

/-! ## View radius and seeding -/

/-- C1: after `nebu_prep(density, volatility, hue)` the sight radius is exactly
`(1000 - density) * mod`, where `mod` is the player's `ew_detect` or 1 when there
is no player; density 1000 gives 0 and density 0 gives `1000 * mod`. -/
theorem nebu_prep_sight_radius (e : Env) (r : Rand) (density volatility hue : ℚ) (s : Nebula) :
    nebu_getSightRadius (nebu_prep e r density volatility hue s)
        = (1000 - density) * (match e.player_p with
                              | some p => p.stats.ew_detect
                              | none => 1)
      ∧ nebu_getSightRadius (nebu_prep e r 1000 volatility hue s) = 0
      ∧ nebu_getSightRadius (nebu_prep e r 0 volatility hue s)
        = 1000 * (match e.player_p with
                  | some p => p.stats.ew_detect
                  | none => 1) := by
  refine ⟨?_, ?_, ?_⟩ <;> cases hp : e.player_p <;>
    simp [nebu_getSightRadius, nebu_prep, nebu_update, Nebula.emit, hp]

/-- C2: for a density of at least 0 (so for every density in [0, 1000])
`nebu_prep` sets `nebu_npuffs` to `density / 2` rounded down, and the puff array
holds exactly that many puffs, puff `i` being the one seeded by iteration `i`;
density 500 gives 250 puffs and density 0 gives none. -/
theorem nebu_prep_npuffs (e : Env) (r : Rand) (density volatility hue : ℚ) (s : Nebula)
    (h0 : 0 ≤ density) :
    (nebu_prep e r density volatility hue s).nebu_npuffs = ⌊density / 2⌋
      ∧ ((nebu_prep e r density volatility hue s).nebu_puffs.length : Int)
          = (nebu_prep e r density volatility hue s).nebu_npuffs
      ∧ (∀ i : Nat, (i : Int) < ⌊density / 2⌋ →
          (nebu_prep e r density volatility hue s).nebu_puffs.get? i = some (prep_puff e r i))
      ∧ (nebu_prep e r 500 volatility hue s).nebu_npuffs = 250
      ∧ (nebu_prep e r 500 volatility hue s).nebu_puffs.length = 250
      ∧ (nebu_prep e r 0 volatility hue s).nebu_npuffs = 0
      ∧ (nebu_prep e r 0 volatility hue s).nebu_puffs = [] := by
  have hq : 0 ≤ density / 2 := by positivity
  have hfl : 0 ≤ ⌊density / 2⌋ := Int.floor_nonneg.mpr hq
  have t500 : c_trunc ((500 : ℚ) / 2) = 250 := by norm_num [c_trunc]
  have t0 : c_trunc 0 = 0 := by norm_num [c_trunc]
  refine ⟨?_, ?_, ?_, ?_, ?_, ?_, ?_⟩
  · simp [nebu_prep, c_trunc_of_nonneg hq]
  · simp [nebu_prep, c_trunc_of_nonneg hq, Int.toNat_of_nonneg hfl]
  · intro i hi
    have hi2 : i < ⌊density / 2⌋.toNat := by omega
    simp [nebu_prep, c_trunc_of_nonneg hq, List.getElem?_map, List.getElem?_range hi2]
  · simp [nebu_prep, t500]
  · simp [nebu_prep, t500]
  · simp [nebu_prep, t0]
  · simp [nebu_prep, t0]

/-- Witness of C2 at density 7: three puffs. -/
theorem nebu_prep_npuffs_witness :
    (0 : ℚ) ≤ 7 ∧ (nebu_prep sample_env sample_rand 7 0 0 initial).nebu_npuffs = ⌊(7 : ℚ) / 2⌋ :=
  ⟨by norm_num, (nebu_prep_npuffs sample_env sample_rand 7 0 0 initial (by norm_num)).1⟩

/-! ## Puff positions stay in the wrapped playfield -/

theorem nebu_blitFBO_puffs (s : Nebula) : (nebu_blitFBO s).nebu_puffs = s.nebu_puffs := by
  unfold nebu_blitFBO
  split_ifs <;> rfl

theorem nebu_renderBackground_puffs (e : Env) (dt : ℚ) (s : Nebula) :
    (nebu_renderBackground e dt s).nebu_puffs = s.nebu_puffs := by
  unfold nebu_renderBackground
  simp only [Nebula.emit, nebu_blitFBO_puffs]
  split_ifs <;> rfl

theorem nebu_renderOverlay_puffs (e : Env) (dt : ℚ) (s : Nebula) :
    (nebu_renderOverlay e dt s).nebu_puffs = (nebu_renderPuffs e 0 s).nebu_puffs := by
  unfold nebu_renderOverlay
  simp only [Nebula.emit, nebu_blitFBO_puffs]
  split_ifs <;> rfl

theorem prep_puff_in_field (e : Env) (r : Rand) (i : Nat)
    (hr : ∀ k, 0 ≤ r.rngf k ∧ r.rngf k < 1) :
    (prep_puff e r i).in_field e.SCREEN_W e.SCREEN_H := by
  have hw := field_w_pos e
  have hh := field_h_pos e
  obtain ⟨a, b⟩ := hr (6 * i)
  obtain ⟨c, d⟩ := hr (6 * i + 1)
  refine ⟨?_, ?_, ?_, ?_⟩
  · exact mul_nonneg hw.le a
  · show field_w e * r.rngf (6 * i) < field_w e
    nlinarith
  · exact mul_nonneg hh.le c
  · show field_h e * r.rngf (6 * i + 1) < field_h e
    nlinarith

/-! ## Layers -/

/-- The front pass (flag 0) keeps a puff exactly when its height is at least 1,
the back pass (flag 1) exactly when it is at most 1. -/
theorem puff_wrong_layer_iff (height : ℚ) :
    (puff_wrong_layer 0 height = false ↔ 1 ≤ height)
      ∧ (puff_wrong_layer 1 height = false ↔ height ≤ 1) := by
  constructor <;> simp [puff_wrong_layer]

theorem level_trunc : c_trunc ((2 : ℚ) / 2) = 1 := by norm_num [c_trunc]

/-- The whole numbers met in the sample frames are stored exactly. -/
theorem to_double_samples :
    to_double 0 = 0 ∧ to_double 10 = 10 ∧ to_double 660 = 660 ∧ to_double 950 = 950
      ∧ to_double 960 = 960 := by
  refine ⟨?_, ?_, ?_, ?_, ?_⟩
  · simpa using to_double_natCast 0 (by norm_num)
  · simpa using to_double_natCast 10 (by norm_num)
  · simpa using to_double_natCast 660 (by norm_num)
  · simpa using to_double_natCast 950 (by norm_num)
  · simpa using to_double_natCast 960 (by norm_num)

/-- C4: a puff seeded at height exactly 1 is processed by both passes: neither
layer test skips it, and from the same state the back pass (flag 1) and the
front pass (flag 0) each move it from x = 940 to x = 950. -/
theorem level_puff_in_both_passes :
    level_state.nebu_puffs = [{ x := 940, y := 660, height := 1, s := 10, rx := 0, ry := 0 }]
      ∧ puff_wrong_layer 1 1 = false ∧ puff_wrong_layer 0 1 = false
      ∧ (nebu_renderPuffs sample_env 1 level_state).nebu_puffs
          = [{ x := 950, y := 660, height := 1, s := 10, rx := 0, ry := 0 }]
      ∧ (nebu_renderPuffs sample_env 0 level_state).nebu_puffs
          = [{ x := 950, y := 660, height := 1, s := 10, rx := 0, ry := 0 }] := by
  obtain ⟨td0, td10, td660, td950, td960⟩ := to_double_samples
  refine ⟨?_, ?_, ?_, ?_, ?_⟩ <;>
    norm_num [level_state, nebu_prep, nebu_movePuffs, nebu_update, Nebula.emit, level_trunc,
      sample_env, level_rand, nebu_renderPuffs, nebu_renderPuff, puff_wrong_layer, puff_moved,
      puff_wrap, fmod, c_trunc, puff_offscreen, prep_puff, field_w, field_h, NEBULA_PUFF_BUFFER,
      initial, puff_draw, List.range_succ, td0, td10, td660, td950, td960]

/-- C5: in one frame (`nebu_render` then `nebu_renderOverlay`, main menu closed)
with pending displacement (10, 0), the puff at height 1 and x = 940 ends at
x = 960: it is displaced twice, not to `940 + 10 * 1 = 950`. -/
theorem level_puff_displaced_twice :
    sample_env.menu_main_open = false
      ∧ level_state.puff_x = 10 ∧ level_state.puff_y = 0
      ∧ level_state.nebu_puffs = [{ x := 940, y := 660, height := 1, s := 10, rx := 0, ry := 0 }]
      ∧ (nebu_renderOverlay sample_env 0 (nebu_render sample_env 0 level_state)).nebu_puffs
          = [{ x := 960, y := 660, height := 1, s := 10, rx := 0, ry := 0 }]
      ∧ puff_wrap 940 10 1 (field_w sample_env) = 950 := by
  obtain ⟨td0, td10, td660, td950, td960⟩ := to_double_samples
  refine ⟨rfl, ?_, ?_, ?_, ?_, ?_⟩ <;>
    norm_num [level_state, nebu_prep, nebu_movePuffs, nebu_update, Nebula.emit, level_trunc,
      sample_env, level_rand, nebu_renderPuffs, nebu_renderPuff, puff_wrong_layer, puff_moved,
      puff_wrap, fmod, c_trunc, puff_offscreen, prep_puff, field_w, field_h, NEBULA_PUFF_BUFFER,
      initial, puff_draw, List.range_succ, nebu_render, nebu_renderOverlay, nebu_renderBackground,
      nebu_blitFBO, td0, td10, td660, td950, td960]

/-! ## What the puff loop leaves alone -/

theorem nebu_renderPuff_core (e : Env) (b : Int) (s : Nebula) (i : Nat) :
    (nebu_renderPuff e b s i).core = s.core := by
  unfold nebu_renderPuff
  cases s.nebu_puffs.get? i with
  | none => rfl
  | some puff =>
    simp only
    split_ifs <;> rfl

theorem nebu_renderPuffs_core (e : Env) (b : Int) (s : Nebula) :
    (nebu_renderPuffs e b s).core = s.core := by
  unfold nebu_renderPuffs
  split_ifs
  · rfl
  · generalize List.range s.nebu_npuffs.toNat = is
    induction is generalizing s with
    | nil => rfl
    | cons i is ih => rw [List.foldl_cons, ih, nebu_renderPuff_core]

theorem CFloat.c_eq_self (a : CFloat) (h : a ≠ CFloat.nan) : a.c_eq a = true := by
  cases a with
  | fin q => simp [CFloat.c_eq]
  | inf n => simp [CFloat.c_eq]
  | nan => exact absurd rfl h

theorem c_round_div_ne_nan (n : Nat) (scale : ℚ) (z : Bool) (h : scale ≠ 0 ∨ 0 < n) :
    c_round_div n scale z ≠ CFloat.nan := by
  unfold c_round_div
  by_cases hs : scale = 0
  · have hn : n ≠ 0 := by
      rcases h with h | h
      · exact absurd hs h
      · omega
    simp [hs, hn]
  · simp [hs]

theorem c_round_div_of_ne_zero (n : Nat) (scale : ℚ) (z : Bool) (h : scale ≠ 0) :
    c_round_div n scale z = CFloat.fin (c_round (to_double ((n : ℚ) / scale))) := by
  simp [c_round_div, h]

/-- The scales and render sizes of the sample configurations are stored
exactly. -/
theorem to_double_sizes :
    to_double 4 = 4 ∧ to_double 320 = 320 ∧ to_double 180 = 180
      ∧ to_double (1 / 4) = 1 / 4 := by
  refine ⟨?_, ?_, ?_, ?_⟩
  · simpa using to_double_natCast 4 (by norm_num)
  · simpa using to_double_natCast 320 (by norm_num)
  · simpa using to_double_natCast 180 (by norm_num)
  · have hE : double_exponent (1 / 4 : ℚ) = -2 := by
      unfold double_exponent
      have : Int.log 2 |(1 / 4 : ℚ)| = -2 := by
        apply int_log_two_eq <;> norm_num [abs_of_pos]
      rw [this]; rfl
    rw [to_double_of_near _ (-2) (2 ^ 52) hE (by norm_num)]
    norm_num

theorem nebu_resize_of_unchanged (e : Env) (s : Nebula) (h : resize_unchanged e s = true) :
    nebu_resize e s = (0, s) := by
  unfold nebu_resize
  rw [if_pos h]

theorem nebu_resize_of_changed (e : Env) (s : Nebula) (h : resize_unchanged e s = false) :
    (nebu_resize e s).1 = 0
      ∧ (nebu_resize e s).2.nebu_scale = resize_scale e
      ∧ (nebu_resize e s).2.nebu_render_w = resize_fbo_w e
      ∧ (nebu_resize e s).2.nebu_render_h = resize_fbo_h e
      ∧ (nebu_resize e s).2.nebu_dofbo = decide (resize_scale e ≠ 1) := by
  refine ⟨?_, ?_, ?_, ?_, ?_⟩ <;>
    (unfold nebu_resize; rw [h]; simp only [Nebula.emit, Bool.false_eq_true, if_false]) <;>
    first | rfl | (split_ifs <;> rfl)

/-- A resize at a scale other than 1 that does not return early makes eight
backend calls: two deletions, the creation, and five for the matrices. -/
theorem nebu_resize_gl_length (e : Env) (s : Nebula) (hu : resize_unchanged e s = false)
    (hsc : resize_scale e ≠ 1) :
    (nebu_resize e s).2.gl.length = s.gl.length + 8 := by
  simp [nebu_resize, hu, hsc, Nebula.emit]

/-- After a resize whose render size is not NaN, the early-return test holds on
the same configuration. -/
theorem nebu_resize_then_unchanged (e : Env) (s : Nebula)
    (hd : resize_scale e ≠ 0 ∨ (0 < e.gl_screen_nw ∧ 0 < e.gl_screen_nh)) :
    resize_unchanged e (nebu_resize e s).2 = true := by
  cases h : resize_unchanged e s with
  | true => rw [nebu_resize_of_unchanged e s h]; exact h
  | false =>
    obtain ⟨_, a, b, c, _⟩ := nebu_resize_of_changed e s h
    have hw : resize_fbo_w e ≠ CFloat.nan :=
      c_round_div_ne_nan _ _ _ (hd.imp id (fun x => x.1))
    have hh : resize_fbo_h e ≠ CFloat.nan :=
      c_round_div_ne_nan _ _ _ (hd.imp id (fun x => x.2))
    simp [resize_unchanged, a, b, c, CFloat.c_eq_self _ hw, CFloat.c_eq_self _ hh]

theorem sample_env_render_size :
    resize_scale sample_env = 4 ∧ resize_fbo_w sample_env = CFloat.fin 320
      ∧ resize_fbo_h sample_env = CFloat.fin 180 := by
  obtain ⟨td4, td320, td180, _⟩ := to_double_sizes
  have h4 : resize_scale sample_env = 4 := by norm_num [resize_scale, sample_env, td4]
  refine ⟨h4, ?_, ?_⟩
  · rw [resize_fbo_w, h4, c_round_div_of_ne_zero _ _ _ (by norm_num)]
    norm_num [c_round, sample_env, td320]
  · rw [resize_fbo_h, h4, c_round_div_of_ne_zero _ _ _ (by norm_num)]
    norm_num [c_round, sample_env, td180]

theorem sample_env_changed : resize_unchanged sample_env initial = false := by
  obtain ⟨h4, hw, hh⟩ := sample_env_render_size
  simp [resize_unchanged, h4, hw, hh, initial, CFloat.c_eq]

/-- C8 fails as stated: from the initial state, with effective scale 4 on a 1x1
window, `nebu_resize` takes its early return and stays in direct mode although
the scale differs from 1. -/
theorem nebu_resize_initial_tiny_stays_direct :
    resize_scale tiny_env ≠ 1
      ∧ (nebu_resize tiny_env initial).2.nebu_dofbo = false
      ∧ ¬ ((nebu_resize tiny_env initial).2.nebu_dofbo = true ↔ resize_scale tiny_env ≠ 1) := by
  obtain ⟨td4, _, _, tdq⟩ := to_double_sizes
  have h4 : resize_scale tiny_env = 4 := by
    norm_num [resize_scale, tiny_env, sample_env, td4]
  have h1 : resize_scale tiny_env ≠ 1 := by rw [h4]; norm_num
  have hw : resize_fbo_w tiny_env = CFloat.fin 0 := by
    rw [resize_fbo_w, h4, c_round_div_of_ne_zero _ _ _ (by norm_num)]
    norm_num [c_round, tiny_env, tdq]
  have hh : resize_fbo_h tiny_env = CFloat.fin 0 := by
    rw [resize_fbo_h, h4, c_round_div_of_ne_zero _ _ _ (by norm_num)]
    norm_num [c_round, tiny_env, tdq]
  have h2 : resize_unchanged tiny_env initial = true := by
    simp [resize_unchanged, h4, hw, hh, initial, CFloat.c_eq]
  have h3 : (nebu_resize tiny_env initial).2.nebu_dofbo = false := by
    rw [nebu_resize_of_unchanged _ _ h2]; rfl
  refine ⟨h1, h3, ?_⟩
  rw [h3]
  intro h
  exact Bool.false_ne_true (h.mpr h1)

/-- C8 as amended: when the call does not take the unchanged-configuration early
return, or when before the call `nebu_dofbo` already is 1 exactly when
`nebu_scale` differs from 1, then after `nebu_resize` the compositor is buffered
exactly when the effective scale `conf.nebu_scale * gl_screen.scale` differs
from 1, and `nebu_dofbo` again is 1 exactly when `nebu_scale` differs from 1. -/
theorem nebu_resize_mode (e : Env) (s : Nebula)
    (h : resize_unchanged e s = false ∨ (s.nebu_dofbo = true ↔ s.nebu_scale ≠ 1)) :
    ((nebu_resize e s).2.nebu_dofbo = true ↔ resize_scale e ≠ 1)
      ∧ ((nebu_resize e s).2.nebu_dofbo = true ↔ (nebu_resize e s).2.nebu_scale ≠ 1) := by
  cases hu : resize_unchanged e s with
  | false =>
    obtain ⟨_, a, _, _, d⟩ := nebu_resize_of_changed e s hu
    rw [a, d]
    simp
  | true =>
    have hs : s.nebu_dofbo = true ↔ s.nebu_scale ≠ 1 := by
      rcases h with h | h
      · rw [hu] at h; exact absurd h (by decide)
      · exact h
    have hsc : resize_scale e = s.nebu_scale := by
      simp only [resize_unchanged, Bool.and_eq_true, decide_eq_true_eq] at hu
      exact hu.1.1
    rw [nebu_resize_of_unchanged e s hu, hsc]
    exact ⟨hs, hs⟩

/-- Witness of C8 as amended: the first resize on the sample 1280x720 screen at
scale 4 switches to buffered mode. -/
theorem nebu_resize_mode_witness :
    (resize_unchanged sample_env initial = false
        ∨ (initial.nebu_dofbo = true ↔ initial.nebu_scale ≠ 1))
      ∧ (nebu_resize sample_env initial).2.nebu_dofbo = true :=
  have h : resize_unchanged sample_env initial = false := sample_env_changed
  ⟨Or.inl h, (nebu_resize_mode sample_env initial (Or.inl h)).1.mpr
    (by rw [sample_env_render_size.1]; norm_num)⟩

/-- C9 fails as stated: at effective scale 0 on a window 0 pixels wide the render
width is `round(0 / 0.)`, a NaN, which is not equal to itself; the second
`nebu_resize` with the configuration unchanged does not take the early return
and goes through the deletion and the creation again (the log of backend calls
grows from 8 to 16 entries). -/
theorem nebu_resize_twice_nan_reallocates :
    resize_scale zero_env = 0 ∧ zero_env.gl_screen_nw = 0
      ∧ (nebu_resize zero_env initial).2.nebu_render_w = CFloat.nan
      ∧ resize_unchanged zero_env (nebu_resize zero_env initial).2 = false
      ∧ (nebu_resize zero_env initial).2.gl.length = 8
      ∧ (nebu_resize zero_env (nebu_resize zero_env initial).2).2.gl.length = 16
      ∧ nebu_resize zero_env (nebu_resize zero_env initial).2
          ≠ (0, (nebu_resize zero_env initial).2) := by
  have h0 : resize_scale zero_env = 0 := by
    norm_num [resize_scale, zero_env, to_double_samples.1]
  have hn : zero_env.gl_screen_nw = 0 := rfl
  have hw : resize_fbo_w zero_env = CFloat.nan := by
    rw [resize_fbo_w, h0, hn]
    simp [c_round_div]
  have hu : resize_unchanged zero_env initial = false := by
    simp [resize_unchanged, h0, initial]
  obtain ⟨_, a, b, c, d⟩ := nebu_resize_of_changed zero_env initial hu
  have hu2 : resize_unchanged zero_env (nebu_resize zero_env initial).2 = false := by
    simp [resize_unchanged, a, b, hw, CFloat.c_eq]
  have hd : (nebu_resize zero_env initial).2.nebu_dofbo = true := by
    rw [d, h0]; simp
  have hne : resize_scale zero_env ≠ 1 := by rw [h0]; norm_num
  have l1 : (nebu_resize zero_env initial).2.gl.length = 8 := by
    rw [nebu_resize_gl_length _ _ hu hne]; rfl
  have l2 : (nebu_resize zero_env (nebu_resize zero_env initial).2).2.gl.length = 16 := by
    rw [nebu_resize_gl_length _ _ hu2 hne, l1]
  refine ⟨h0, rfl, b.trans hw, hu2, l1, l2, ?_⟩
  intro heq
  have := congrArg (fun r : Int × Nebula => r.2.gl.length) heq
  simp only [l1, l2] at this
  omega

/-- C9 as amended: when the effective scale is not zero, or both screen
dimensions are positive (so that neither render size is the NaN `0 / 0.`), a
second `nebu_resize` with the configuration unchanged returns 0 and leaves the
whole state as the first call left it: the log of backend calls gains nothing
(no texture or framebuffer deleted or created), and `nebu_scale`,
`nebu_render_w`, `nebu_render_h`, `nebu_dofbo`, `nebu_render_P`, `nebu_fbo` and
`nebu_tex` keep their values. -/
theorem nebu_resize_twice (e : Env) (s : Nebula)
    (hd : resize_scale e ≠ 0 ∨ (0 < e.gl_screen_nw ∧ 0 < e.gl_screen_nh)) :
    nebu_resize e (nebu_resize e s).2 = (0, (nebu_resize e s).2)
      ∧ (nebu_resize e (nebu_resize e s).2).2.gl = (nebu_resize e s).2.gl
      ∧ (nebu_resize e (nebu_resize e s).2).2.nebu_render_P = (nebu_resize e s).2.nebu_render_P
      ∧ (nebu_resize e (nebu_resize e s).2).2.nebu_dofbo = (nebu_resize e s).2.nebu_dofbo := by
  have h := nebu_resize_of_unchanged e _ (nebu_resize_then_unchanged e s hd)
  rw [h]
  exact ⟨rfl, rfl, rfl, rfl⟩

/-- Witness of C9 as amended: the sample configuration (scale 4, 1280x720), from
the initial state; the first call did the full work (8 backend calls). -/
theorem nebu_resize_twice_witness :
    (resize_scale sample_env ≠ 0 ∨ (0 < sample_env.gl_screen_nw ∧ 0 < sample_env.gl_screen_nh))
      ∧ (nebu_resize sample_env initial).2.gl.length = 8
      ∧ nebu_resize sample_env (nebu_resize sample_env initial).2
          = (0, (nebu_resize sample_env initial).2) :=
  have hd : resize_scale sample_env ≠ 0
      ∨ (0 < sample_env.gl_screen_nw ∧ 0 < sample_env.gl_screen_nh) :=
    Or.inr ⟨by decide, by decide⟩
  have hl : (nebu_resize sample_env initial).2.gl.length = 8 := by
    rw [nebu_resize_gl_length _ _ sample_env_changed
      (by rw [sample_env_render_size.1]; norm_num)]
    rfl
  ⟨hd, hl, (nebu_resize_twice sample_env initial hd).1⟩

theorem puff_pass_core (e : Env) (b : Int) (s t : Nebula) (h : s.core = t.core) :
    puff_pass e b s = puff_pass e b t := by
  have hx := congrArg (fun c : Nebula => c.puff_x) h
  have hy := congrArg (fun c : Nebula => c.puff_y) h
  simp only [Nebula.core] at hx hy
  funext p
  simp only [puff_pass, puff_moved, hx, hy]

theorem nebu_renderPuff_get (e : Env) (b : Int) (s : Nebula) (i j : Nat) :
    (nebu_renderPuff e b s i).nebu_puffs.get? j
      = if j = i then (s.nebu_puffs.get? j).map (puff_pass e b s) else s.nebu_puffs.get? j := by
  unfold nebu_renderPuff
  cases hg : s.nebu_puffs.get? i with
  | none =>
    simp only
    split_ifs with hji
    · subst hji; rw [hg]; rfl
    · rfl
  | some puff =>
    have hlt : i < s.nebu_puffs.length := by
      rw [List.get?_eq_getElem?] at hg
      exact (List.getElem?_eq_some_iff.mp hg).1
    simp only
    by_cases hl : puff_wrong_layer b puff.height = true
    · rw [if_pos hl]
      split_ifs with hji
      · subst hji; rw [hg]; simp [puff_pass, hl]
      · rfl
    · rw [if_neg hl]
      have hset : ∀ u : Nebula, u.nebu_puffs = s.nebu_puffs.set i (puff_moved e s puff) →
          u.nebu_puffs.get? j
            = if j = i then (s.nebu_puffs.get? j).map (puff_pass e b s)
              else s.nebu_puffs.get? j := by
        intro u hu
        rw [hu, List.get?_eq_getElem?, List.getElem?_set]
        by_cases hji : j = i
        · subst hji
          rw [hg]
          simp [puff_pass, hl, hlt]
        · rw [if_neg (Ne.symm hji), if_neg hji, List.get?_eq_getElem?]
      by_cases ho : puff_offscreen e (puff_moved e s puff) = true
      · rw [if_pos ho]; exact hset _ rfl
      · rw [if_neg ho]; exact hset _ rfl

theorem renderPuffs_loop_get (e : Env) (b : Int) (s : Nebula) (n : Nat) :
    ((List.range n).foldl (nebu_renderPuff e b) s).core = s.core
      ∧ ∀ j, ((List.range n).foldl (nebu_renderPuff e b) s).nebu_puffs.get? j
          = if j < n then (s.nebu_puffs.get? j).map (puff_pass e b s)
            else s.nebu_puffs.get? j := by
  induction n with
  | zero => exact ⟨rfl, fun j => by simp⟩
  | succ n ih =>
    obtain ⟨hc, hg⟩ := ih
    rw [List.range_succ, List.foldl_append, List.foldl_cons, List.foldl_nil]
    refine ⟨(nebu_renderPuff_core e b _ n).trans hc, fun j => ?_⟩
    rw [nebu_renderPuff_get, hg j, puff_pass_core e b _ s hc]
    by_cases hjn : j = n
    · subst hjn
      simp
    · rw [if_neg hjn]
      by_cases hlt : j < n
      · rw [if_pos hlt, if_pos (Nat.lt_succ_of_lt hlt)]
      · rw [if_neg hlt, if_neg (by omega)]

theorem nebu_renderPuffs_map (e : Env) (b : Int) (s : Nebula)
    (hm : e.menu_main_open = false) (hn : (s.nebu_puffs.length : Int) = s.nebu_npuffs) :
    (nebu_renderPuffs e b s).nebu_puffs = s.nebu_puffs.map (puff_pass e b s) := by
  unfold nebu_renderPuffs
  rw [hm]
  simp only [Bool.false_eq_true, if_false]
  have hlen : s.nebu_npuffs.toNat = s.nebu_puffs.length := by omega
  apply List.ext_get?
  intro j
  rw [(renderPuffs_loop_get e b s _).2 j, hlen]
  by_cases hj : j < s.nebu_puffs.length
  · rw [if_pos hj]; simp [List.get?_eq_getElem?]
  · rw [if_neg hj]
    simp [List.get?_eq_getElem?, List.getElem?_eq_none (not_lt.mp hj)]

theorem puff_pass_congr (e : Env) (b : Int) (s t : Nebula)
    (hx : s.puff_x = t.puff_x) (hy : s.puff_y = t.puff_y) :
    puff_pass e b s = puff_pass e b t := by
  funext p
  simp only [puff_pass, puff_moved, hx, hy]

theorem nebu_renderPuffs_length (e : Env) (b : Int) (s : Nebula)
    (hm : e.menu_main_open = false) (hn : (s.nebu_puffs.length : Int) = s.nebu_npuffs) :
    ((nebu_renderPuffs e b s).nebu_puffs.length : Int) = (nebu_renderPuffs e b s).nebu_npuffs := by
  have hc := congrArg (fun c : Nebula => c.nebu_npuffs) (nebu_renderPuffs_core e b s)
  simp only [Nebula.core] at hc
  rw [nebu_renderPuffs_map e b s hm hn, List.length_map, hc, hn]

theorem nebu_renderBackground_keeps (e : Env) (dt : ℚ) (s : Nebula) :
    (nebu_renderBackground e dt s).nebu_npuffs = s.nebu_npuffs
      ∧ (nebu_renderBackground e dt s).puff_x = s.puff_x
      ∧ (nebu_renderBackground e dt s).puff_y = s.puff_y := by
  unfold nebu_renderBackground nebu_blitFBO
  simp only [Nebula.emit]
  refine ⟨?_, ?_, ?_⟩ <;> split_ifs <;> rfl

/-- Both passes of one frame on one puff: moved once, or twice at height 1. -/
theorem puff_pass_both (e : Env) (s : Nebula) (p : NebulaPuff) :
    puff_pass e 0 s (puff_pass e 1 s p)
      = if p.height = 1 then puff_moved e s (puff_moved e s p) else puff_moved e s p := by
  rcases lt_trichotomy p.height 1 with h | h | h
  · have h1 : ¬ (1 < p.height) := not_lt.mpr h.le
    simp [puff_pass, puff_wrong_layer, puff_moved, h, h1, h.ne]
  · simp [puff_pass, puff_wrong_layer, puff_moved, h]
  · have h1 : ¬ (p.height < 1) := not_lt.mpr h.le
    simp [puff_pass, puff_wrong_layer, puff_moved, h, h1, h.ne']

/-- One frame with the main menu closed, on a puff array of `nebu_npuffs`
entries: every puff of height other than 1 gets the position update once, a puff
of height exactly 1 gets it twice. -/
theorem frame_puffs (e : Env) (dt1 dt2 : ℚ) (s : Nebula)
    (hm : e.menu_main_open = false) (hn : (s.nebu_puffs.length : Int) = s.nebu_npuffs) :
    (nebu_renderOverlay e dt2 (nebu_render e dt1 s)).nebu_puffs
      = s.nebu_puffs.map (fun p =>
          if p.height = 1 then puff_moved e s (puff_moved e s p) else puff_moved e s p) := by
  obtain ⟨kn, kx, ky⟩ := nebu_renderBackground_keeps e dt1 s
  have kp := nebu_renderBackground_puffs e dt1 s
  have hn1 : ((nebu_renderBackground e dt1 s).nebu_puffs.length : Int)
      = (nebu_renderBackground e dt1 s).nebu_npuffs := by rw [kp, kn, hn]
  have hn2 := nebu_renderPuffs_length e 1 _ hm hn1
  have hc := nebu_renderPuffs_core e 1 (nebu_renderBackground e dt1 s)
  have cx := congrArg (fun c : Nebula => c.puff_x) hc
  have cy := congrArg (fun c : Nebula => c.puff_y) hc
  simp only [Nebula.core] at cx cy
  rw [nebu_renderOverlay_puffs, nebu_render, nebu_renderPuffs_map e 0 _ hm hn2,
    nebu_renderPuffs_map e 1 _ hm hn1, kp, List.map_map,
    puff_pass_congr e 0 _ s (cx.trans kx) (cy.trans ky),
    puff_pass_congr e 1 _ s kx ky]
  apply List.map_congr_left
  intro p _
  exact puff_pass_both e s p

/-! ## Seeding ranges -/

/-- C11: when every `RNGF()` draw is in [0, 1) and every `RNG(a, b)` draw with
`a ≤ b` is in [a, b], every puff produced by `nebu_prep` has height in
[0.2, 1.2), radius in [10, 32], x in [0, SCREEN_W + 2*NEBULA_PUFF_BUFFER), y in
[0, SCREEN_H + 2*NEBULA_PUFF_BUFFER) and both phase seeds in [-1000, 1000). -/
theorem nebu_prep_puff_ranges (e : Env) (r : Rand) (density volatility hue : ℚ) (s : Nebula)
    (hr : ∀ k, 0 ≤ r.rngf k ∧ r.rngf k < 1)
    (hg : ∀ k a b, a ≤ b → a ≤ r.rng k a b ∧ r.rng k a b ≤ b) :
    ∀ p ∈ (nebu_prep e r density volatility hue s).nebu_puffs,
      (1 / 5 ≤ p.height ∧ p.height < 6 / 5)
        ∧ (10 ≤ p.s ∧ p.s ≤ 32)
        ∧ (0 ≤ p.x ∧ p.x < (e.SCREEN_W : ℚ) + 2 * NEBULA_PUFF_BUFFER)
        ∧ (0 ≤ p.y ∧ p.y < (e.SCREEN_H : ℚ) + 2 * NEBULA_PUFF_BUFFER)
        ∧ (-1000 ≤ p.rx ∧ p.rx < 1000)
        ∧ (-1000 ≤ p.ry ∧ p.ry < 1000) := by
  intro p hp
  simp only [nebu_prep, List.mem_map] at hp
  obtain ⟨i, _, rfl⟩ := hp
  obtain ⟨fx0, fx1, fy0, fy1⟩ := prep_puff_in_field e r i hr
  obtain ⟨h0, h1⟩ := hr (6 * i + 3)
  obtain ⟨a0, a1⟩ := hr (6 * i + 4)
  obtain ⟨b0, b1⟩ := hr (6 * i + 5)
  obtain ⟨g0, g1⟩ := hg (6 * i + 2) 10 32 (by norm_num)
  have g0q : ((10 : Int) : ℚ) ≤ (r.rng (6 * i + 2) 10 32 : ℚ) := Int.cast_le.mpr g0
  have g1q : (r.rng (6 * i + 2) 10 32 : ℚ) ≤ ((32 : Int) : ℚ) := Int.cast_le.mpr g1
  refine ⟨⟨?_, ?_⟩, ⟨?_, ?_⟩, ⟨fx0, fx1⟩, ⟨fy0, fy1⟩, ⟨?_, ?_⟩, ⟨?_, ?_⟩⟩
  · show 1 / 5 ≤ r.rngf (6 * i + 3) + 1 / 5
    linarith
  · show r.rngf (6 * i + 3) + 1 / 5 < 6 / 5
    linarith
  · show (10 : ℚ) ≤ (r.rng (6 * i + 2) 10 32 : ℚ)
    simpa using g0q
  · show (r.rng (6 * i + 2) 10 32 : ℚ) ≤ 32
    simpa using g1q
  · show -1000 ≤ r.rngf (6 * i + 4) * 2000 - 1000
    linarith
  · show r.rngf (6 * i + 4) * 2000 - 1000 < 1000
    linarith
  · show -1000 ≤ r.rngf (6 * i + 5) * 2000 - 1000
    linarith
  · show r.rngf (6 * i + 5) * 2000 - 1000 < 1000
    linarith

/-- Witness of C11: the sample generator at density 6 (three puffs). -/
theorem nebu_prep_puff_ranges_witness :
    (∀ k, 0 ≤ sample_rand.rngf k ∧ sample_rand.rngf k < 1)
      ∧ (∀ k a b, a ≤ b → a ≤ sample_rand.rng k a b ∧ sample_rand.rng k a b ≤ b)
      ∧ (nebu_prep sample_env sample_rand 6 0 0 initial).nebu_puffs.length = 3
      ∧ ∀ p ∈ (nebu_prep sample_env sample_rand 6 0 0 initial).nebu_puffs,
          (1 / 5 ≤ p.height ∧ p.height < 6 / 5)
            ∧ (10 ≤ p.s ∧ p.s ≤ 32)
            ∧ (0 ≤ p.x ∧ p.x < (sample_env.SCREEN_W : ℚ) + 2 * NEBULA_PUFF_BUFFER)
            ∧ (0 ≤ p.y ∧ p.y < (sample_env.SCREEN_H : ℚ) + 2 * NEBULA_PUFF_BUFFER)
            ∧ (-1000 ≤ p.rx ∧ p.rx < 1000)
            ∧ (-1000 ≤ p.ry ∧ p.ry < 1000) :=
  have h1 : ∀ k, 0 ≤ sample_rand.rngf k ∧ sample_rand.rngf k < 1 := by
    intro k; norm_num [sample_rand]
  have h2 : ∀ k a b, a ≤ b → a ≤ sample_rand.rng k a b ∧ sample_rand.rng k a b ≤ b :=
    fun _ a _ hab => ⟨le_refl a, hab⟩
  have h3 : (nebu_prep sample_env sample_rand 6 0 0 initial).nebu_puffs.length = 3 := by
    have t6 : c_trunc ((6 : ℚ) / 2) = 3 := by norm_num [c_trunc]
    simp [nebu_prep, t6]
  ⟨h1, h2, h3, nebu_prep_puff_ranges sample_env sample_rand 6 0 0 initial h1 h2⟩

/-! ## Trail ring indexing -/

theorem size_t_mask (k : Nat) (hk : k < 64) :
    (2 ^ k + SIZE_T_MOD - 1) % SIZE_T_MOD = 2 ^ k - 1 := by
  have h1 : 0 < 2 ^ k := Nat.pow_pos (by norm_num)
  have h2 : 2 ^ k < SIZE_T_MOD := by
    unfold SIZE_T_MOD
    exact Nat.pow_lt_pow_right (by norm_num) hk
  have h3 : 2 ^ k + SIZE_T_MOD - 1 = (2 ^ k - 1) + SIZE_T_MOD := by omega
  rw [h3, Nat.add_mod_right, Nat.mod_eq_of_lt (by omega)]

/-- C12: for a capacity that is a power of two (`2^k`, `k < 64`, a 64-bit
`size_t`) and every index `i`, the subscript selected by `trail_at`,
`i & (capacity - 1)`, equals `i mod capacity` and is less than the capacity, so
`trail_at` finds an element in a buffer of that capacity. -/
theorem trail_at_index_eq_mod (trail : Trail_spfx) (i k : Nat) (hk : k < 64)
    (hc : trail.capacity = 2 ^ k) :
    trail_at_index trail i = i % trail.capacity
      ∧ trail_at_index trail i < trail.capacity
      ∧ (trail.point_ringbuf.length = trail.capacity → (trail_at trail i).isSome = true) := by
  have hdvd : 2 ^ k ∣ SIZE_T_MOD := by
    unfold SIZE_T_MOD
    exact Nat.pow_dvd_pow 2 hk.le
  have hidx : trail_at_index trail i = i % trail.capacity := by
    unfold trail_at_index
    rw [hc, size_t_mask k hk, Nat.and_pow_two_sub_one_eq_mod, Nat.mod_mod_of_dvd _ hdvd]
  have hpos : 0 < trail.capacity := by rw [hc]; exact Nat.pow_pos (by norm_num)
  have hlt : trail_at_index trail i < trail.capacity := by
    rw [hidx]; exact Nat.mod_lt _ hpos
  refine ⟨hidx, hlt, fun hlen => ?_⟩
  unfold trail_at
  rw [List.get?_eq_getElem?, List.getElem?_eq_getElem (by rw [hlen]; exact hlt)]
  rfl

/-- Witness of C12: index 37 in the sample trail of capacity 16 selects slot 5. -/
theorem trail_at_index_eq_mod_witness :
    4 < 64 ∧ sample_trail.capacity = 2 ^ 4 ∧ trail_at_index sample_trail 37 = 5
      ∧ trail_at sample_trail 37 = some sample_point := by
  have h := trail_at_index_eq_mod sample_trail 37 4 (by norm_num) rfl
  have h5 : trail_at_index sample_trail 37 = 5 := h.1
  refine ⟨by norm_num, rfl, h5, ?_⟩
  unfold trail_at
  rw [h5]
  rfl

/-! ## Lua conditionals -/

/-- The buffer given to `nlua_dobufenv` is the chunk. -/
theorem cond_check_eq (L : Lua) (cond_env : Int) (ls : LuaState) (cond : List Char) :
    cond_check L cond_env ls cond
      = (let r := L.nlua_dobufenv cond_env (cond_chunk cond)
         let ls2 : LuaState :=
           { ls with stack := r.pushed ++ LuaValue.string (cond_chunk cond) :: ls.stack }
         if r.status = LUA_ERRSYNTAX then
           cond_check_err ls2 cond (CondWarning.syntax_error ls2.stack.head?)
         else if r.status = LUA_ERRRUN then
           cond_check_err ls2 cond (CondWarning.runtime_error ls2.stack.head?)
         else if r.status = LUA_ERRMEM then
           cond_check_err ls2 cond (CondWarning.out_of_memory ls2.stack.head?)
         else if r.status = LUA_ERRERR then
           cond_check_err ls2 cond (CondWarning.error_in_handler ls2.stack.head?)
         else
           match ls2.stack.head? with
           | some (LuaValue.boolean b) => (if b then 1 else 0, { ls2 with stack := [] })
           | _ => cond_check_err ls2 cond CondWarning.not_a_boolean) := by
  unfold cond_check cond_chunk
  by_cases h : strstr_found cond str_return = true
  · simp only [h, if_true, List.head?_cons]
  · simp only [h, if_false, List.head?_cons, Bool.false_eq_true]

theorem head_pushed (pushed : List LuaValue) (c : List Char) (st : List LuaValue) (b : Bool) :
    (pushed ++ LuaValue.string c :: st).head? = some (LuaValue.boolean b)
      ↔ pushed.head? = some (LuaValue.boolean b) := by
  cases pushed with
  | nil => simp
  | cons v vs => simp

/-- C13: with `r` the outcome of running the chunk built from the condition,
`cond_check` returns 1 when `r` is a success (status 0) whose top result is the
boolean true, 0 when it is a success whose top result is the boolean false, and
-1 in every other case among the statuses Lua gives (0, `LUA_ERRSYNTAX`,
`LUA_ERRRUN`, `LUA_ERRMEM`, `LUA_ERRERR`): an error status, or a success whose
top result is not a boolean.  It returns no value other than 1, 0 and -1, and
leaves the Lua stack empty. -/
theorem cond_check_result (L : Lua) (cond_env : Int) (ls : LuaState) (cond : List Char) :
    (((L.nlua_dobufenv cond_env (cond_chunk cond)).status = 0
        ∧ (L.nlua_dobufenv cond_env (cond_chunk cond)).pushed.head? = some (LuaValue.boolean true))
        → (cond_check L cond_env ls cond).1 = 1)
      ∧ (((L.nlua_dobufenv cond_env (cond_chunk cond)).status = 0
        ∧ (L.nlua_dobufenv cond_env (cond_chunk cond)).pushed.head? = some (LuaValue.boolean false))
        → (cond_check L cond_env ls cond).1 = 0)
      ∧ (¬ (((L.nlua_dobufenv cond_env (cond_chunk cond)).status = 0)
            ∧ ∃ b, (L.nlua_dobufenv cond_env (cond_chunk cond)).pushed.head?
                    = some (LuaValue.boolean b))
          → (L.nlua_dobufenv cond_env (cond_chunk cond)).status ∈
              [0, LUA_ERRSYNTAX, LUA_ERRRUN, LUA_ERRMEM, LUA_ERRERR]
          → (cond_check L cond_env ls cond).1 = -1)
      ∧ ((cond_check L cond_env ls cond).1 = 1 ∨ (cond_check L cond_env ls cond).1 = 0
          ∨ (cond_check L cond_env ls cond).1 = -1)
      ∧ (cond_check L cond_env ls cond).2.stack = [] := by
  rw [cond_check_eq]
  generalize L.nlua_dobufenv cond_env (cond_chunk cond) = r
  obtain ⟨status, pushed⟩ := r
  simp only
  have key : ∀ st : List LuaValue, ∀ c : List Char,
      (∃ b, (pushed ++ LuaValue.string c :: st).head? = some (LuaValue.boolean b)
          ∧ pushed.head? = some (LuaValue.boolean b))
        ∨ ((∀ b, (pushed ++ LuaValue.string c :: st).head? ≠ some (LuaValue.boolean b))
          ∧ ∀ b, pushed.head? ≠ some (LuaValue.boolean b)) := by
    intro st c
    by_cases hb : ∃ b, pushed.head? = some (LuaValue.boolean b)
    · obtain ⟨b, hb⟩ := hb
      exact Or.inl ⟨b, (head_pushed pushed c st b).mpr hb, hb⟩
    · push_neg at hb
      exact Or.inr ⟨fun b h => hb b ((head_pushed pushed c st b).mp h), hb⟩
  by_cases h1 : status = LUA_ERRSYNTAX
  · subst h1; simp [cond_check_err, LUA_ERRSYNTAX]
  by_cases h2 : status = LUA_ERRRUN
  · subst h2; simp [cond_check_err, LUA_ERRRUN, LUA_ERRSYNTAX]
  by_cases h3 : status = LUA_ERRMEM
  · subst h3; simp [cond_check_err, LUA_ERRRUN, LUA_ERRSYNTAX, LUA_ERRMEM]
  by_cases h4 : status = LUA_ERRERR
  · subst h4; simp [cond_check_err, LUA_ERRRUN, LUA_ERRSYNTAX, LUA_ERRMEM, LUA_ERRERR]
  simp only [h1, h2, h3, h4, if_false]
  rcases key ls.stack (cond_chunk cond) with ⟨b, hb, hp⟩ | ⟨hn, hp⟩
  · rw [hb]
    cases b <;> simp [hp, h1, h2, h3, h4]
  · have hm : (match (pushed ++ LuaValue.string (cond_chunk cond) :: ls.stack).head? with
        | some (LuaValue.boolean b) => ((if b then 1 else 0 : Int),
            ({ stack := [], log := ls.log } : LuaState))
        | _ => cond_check_err
            { stack := pushed ++ LuaValue.string (cond_chunk cond) :: ls.stack, log := ls.log }
            cond CondWarning.not_a_boolean)
        = cond_check_err
            { stack := pushed ++ LuaValue.string (cond_chunk cond) :: ls.stack, log := ls.log }
            cond CondWarning.not_a_boolean := by
      split
      · next b heq => exact absurd heq (hn b)
      · rfl
    rw [hm]
    simp [cond_check_err, hp, h1, h2, h3, h4]

/-- Witness of C13: the condition `true` becomes the chunk `return true`, which
the sample Lua side evaluates to the boolean true, and `cond_check` returns 1. -/
theorem cond_check_result_witness :
    cond_chunk ['t', 'r', 'u', 'e'] = ['r', 'e', 't', 'u', 'r', 'n', ' ', 't', 'r', 'u', 'e']
      ∧ (sample_lua.nlua_dobufenv 0 (cond_chunk ['t', 'r', 'u', 'e'])).status = 0
      ∧ (sample_lua.nlua_dobufenv 0 (cond_chunk ['t', 'r', 'u', 'e'])).pushed.head?
          = some (LuaValue.boolean true)
      ∧ (cond_check sample_lua 0 sample_lua_state ['t', 'r', 'u', 'e']).1 = 1 :=
  ⟨by decide, rfl, rfl,
    (cond_check_result sample_lua 0 sample_lua_state ['t', 'r', 'u', 'e']).1 ⟨rfl, rfl⟩⟩

/-! ## Pilot ship Lua -/

/-- The value `pilot_shipLInit` returns: 0 without an init function, -1 when the
call fails, 1 when it succeeds. -/
theorem pilot_shipLInit_value (L : Lua) (ls : LuaState) (p : Pilot) :
    (pilot_shipLInit L ls p).1
      = if p.ship.lua_init = LUA_NOREF then 0
        else if (L.nlua_pcall p.ship.lua_env (LuaValue.registry p.ship.lua_init)
                  [LuaValue.pilot p.id]).status ≠ 0 then -1
        else 1 := by
  unfold pilot_shipLInit pilot_shipL_pcall
  by_cases hm : p.lua_ship_mem = LUA_NOREF <;> by_cases hi : p.ship.lua_init = LUA_NOREF <;>
    by_cases hs : (L.nlua_pcall p.ship.lua_env (LuaValue.registry p.ship.lua_init)
                  [LuaValue.pilot p.id]).status = 0 <;>
    simp [hm, hi, hs]

/-- The value the sibling `pilot_shipLExplodeInit` returns: 0 without the
function, -1 when the call fails, 0 when it succeeds. -/
theorem pilot_shipLExplodeInit_value (L : Lua) (ls : LuaState) (p : Pilot) :
    (pilot_shipLExplodeInit L ls p).1
      = if p.ship.lua_explode_init = LUA_NOREF then 0
        else if (L.nlua_pcall p.ship.lua_env (LuaValue.registry p.ship.lua_explode_init)
                  [LuaValue.pilot p.id]).status ≠ 0 then -1
        else 0 := by
  unfold pilot_shipLExplodeInit pilot_shipL_pcall pilot_shipLmem
  by_cases hi : p.ship.lua_explode_init = LUA_NOREF <;>
    by_cases hs : (L.nlua_pcall p.ship.lua_env (LuaValue.registry p.ship.lua_explode_init)
                  [LuaValue.pilot p.id]).status = 0 <;>
    simp [hi, hs]

/-- C14: for the sample pilot, whose ship defines `init` and whose `init` runs
without error (`nlua_pcall` returns 0, no warning is logged), `pilot_shipLInit`
returns 1, not 0; the sibling `pilot_shipLExplodeInit` returns 0 in the same
situation. -/
theorem pilot_shipLInit_success_returns_one :
    sample_pilot.ship.lua_init ≠ LUA_NOREF
      ∧ (sample_lua.nlua_pcall sample_pilot.ship.lua_env
          (LuaValue.registry sample_pilot.ship.lua_init) [LuaValue.pilot sample_pilot.id]).status = 0
      ∧ (pilot_shipLInit sample_lua sample_lua_state sample_pilot).1 = 1
      ∧ (pilot_shipLInit sample_lua sample_lua_state sample_pilot).2.2.log
          = [LuaEvent.luaL_ref LuaValue.table 7,
             LuaEvent.nlua_setenv_mem 1 (LuaValue.registry 7)]
      ∧ (pilot_shipLExplodeInit sample_lua sample_lua_state sample_pilot).1 = 0 := by
  refine ⟨by decide, rfl, ?_, ?_, ?_⟩
  · rfl
  · rfl
  · rfl

/-! ## Shader parameters -/

/-- The one eddy-scale value a background pass hands to the background shader
is `nebu_view * zoom / nebu_scale`. -/
theorem nebu_renderBackground_eddy_scale (e : Env) (dt : ℚ) (s : Nebula) (v : ℚ) :
    GLCall.glUniform1f Loc.bg_eddy_scale v ∈ (nebu_renderBackground e dt s).gl
      ↔ GLCall.glUniform1f Loc.bg_eddy_scale v ∈ s.gl
          ∨ v = s.nebu_view * e.cam_zoom / s.nebu_scale := by
  unfold nebu_renderBackground nebu_blitFBO
  by_cases hd : s.nebu_dofbo = true
  · simp [Nebula.emit, hd, eq_comm]
  · simp [Nebula.emit, hd, eq_comm]

/-- The overlay pass hands `nebu_dx * zoom / nebu_scale` to its shader as eddy
scale. -/
theorem nebu_renderOverlay_eddy_scale (e : Env) (dt : ℚ) (s : Nebula) :
    GLCall.glUniform1f Loc.neb_eddy_scale (s.nebu_dx * e.cam_zoom / s.nebu_scale)
      ∈ (nebu_renderOverlay e dt s).gl := by
  have hc := nebu_renderPuffs_core e 0 s
  have h1 := congrArg (fun c : Nebula => c.nebu_dx) hc
  have h2 := congrArg (fun c : Nebula => c.nebu_scale) hc
  simp only [Nebula.core] at h1 h2
  unfold nebu_renderOverlay nebu_blitFBO
  by_cases hd : (nebu_renderPuffs e 0 s).nebu_dofbo = true
  · simp [Nebula.emit, hd, h1, h2]
  · simp [Nebula.emit, hd, h1, h2]

theorem thin_trunc : c_trunc ((1 : ℚ) / 2) = 0 := by norm_num [c_trunc]

/-- C15: after `nebu_prep(1, 0, 0)` with no player (view radius 999, turbulence
length-scale 15000, `nebu_scale` 4, zoom 1) the background pass gives its shader
the eddy scale `999 / 4 = nebu_view * zoom / nebu_scale` and no other, while
`nebu_dx * zoom / nebu_scale` is 3750, the value the overlay pass gives as its
eddy scale. -/
theorem background_eddy_scale_uses_view :
    thin_state.nebu_view = 999 ∧ thin_state.nebu_dx = 15000 ∧ thin_state.nebu_scale = 4
      ∧ sample_env.cam_zoom = 1
      ∧ (nebu_renderBackground sample_env 0 thin_state).gl.filter is_bg_eddy_scale
          = [GLCall.glUniform1f Loc.bg_eddy_scale (999 / 4)]
      ∧ thin_state.nebu_dx * sample_env.cam_zoom / thin_state.nebu_scale = 3750
      ∧ GLCall.glUniform1f Loc.neb_eddy_scale 3750
          ∈ (nebu_renderOverlay sample_env 0 thin_state).gl := by
  have hv : thin_state.nebu_view = 999 := by
    norm_num [thin_state, nebu_prep, nebu_update, Nebula.emit, sample_env]
  have hx : thin_state.nebu_dx = 15000 := by
    norm_num [thin_state, nebu_prep, nebu_update, Nebula.emit, sample_env]
  have hs : thin_state.nebu_scale = 4 := rfl
  have hz : sample_env.cam_zoom = 1 := rfl
  have hd : thin_state.nebu_dofbo = false := rfl
  have hg : thin_state.gl.filter is_bg_eddy_scale = [] := by
    simp [thin_state, nebu_prep, nebu_update, Nebula.emit, initial, is_bg_eddy_scale]
  have h37 : thin_state.nebu_dx * sample_env.cam_zoom / thin_state.nebu_scale = 3750 := by
    rw [hx, hs, hz]; norm_num
  refine ⟨hv, hx, hs, hz, ?_, h37, ?_⟩
  · unfold nebu_renderBackground nebu_blitFBO
    simp only [Nebula.emit, hd, hv, hs, hz, List.filter_append, hg]
    norm_num [is_bg_eddy_scale, List.filter]
  · have h := nebu_renderOverlay_eddy_scale sample_env 0 thin_state
    rw [h37] at h
    exact h

/-! ## Puff positions over a run -/

end Naev
